import Mathlib

/-!
Verification of the Habit Completion & Ordering Subsystem of the habit-tracker
web application.

The Python routes and models are embedded shallowly:

* JSON values decoded by `json.loads` are modelled by the inductive `JVal`;
  the raw text stored in the `completed_dates` column is modelled by
  `StoredLog`, which records the decode outcome of the stored text
  (`json.loads`/`json.dumps` are Python standard-library collaborators and are
  modelled by their documented behaviour, not re-implemented).
* Each Flask view function becomes a pure Lean function from its inputs
  (session flags, parsed request body, the relevant database rows) to a
  response value paired with the database state after the request.  A result
  of `none` models an uncaught Python exception (a 500 response, nothing
  committed).
* `db.session.commit()` semantics: the returned state is the committed state;
  on early returns before `commit()` the original state is returned, because
  uncommitted session changes are discarded at the end of the request.
-/

namespace HabitTracker

/-- A JSON value as decoded by Python's `json.loads` (floats do not occur in
any of the requests considered here and are omitted). -/
inductive JVal where
  | jnull
  | jbool (b : Bool)
  | jint (n : Int)
  | jstr (s : String)
  | jarr (elems : List JVal)
  | jobj (fields : List (String × JVal))
  deriving Repr, Inhabited

/-- Python truthiness of a decoded JSON value (`bool(x)`). -/
def pyTruthy : JVal → Bool
  | .jnull => false
  | .jbool b => b
  | .jint n => n != 0
  | .jstr s => s ≠ ""
  | .jarr l => !l.isEmpty
  | .jobj f => !f.isEmpty

/-- Python `v == s` where `s` is a string: only equal to an equal string
(Python never equates a `str` with values of other types). -/
def pyEqStr (v : JVal) (s : String) : Bool :=
  match v with
  | .jstr t => t == s
  | _ => false

/-- `dict.get(k)` on a decoded JSON object.  (Python keeps the last duplicate
key when parsing; decoded objects are modelled already deduplicated.) -/
def dictGet (fields : List (String × JVal)) (k : String) : Option JVal :=
  (fields.find? (fun kv => kv.1 == k)).map (fun kv => kv.2)

/-- Digits of a decimal literal, most significant first. -/
def parseNatDigits (cs : List Char) : Option Nat :=
  match cs with
  | [] => none
  | _ =>
    cs.foldl
      (fun acc c =>
        match acc with
        | some a => if c.isDigit then some (a * 10 + (c.toNat - '0'.toNat)) else none
        | none => none)
      (some 0)

/-- CPython `int(s)` on an ASCII decimal string literal with optional sign
(`ValueError`, i.e. `none`, otherwise; the surrounding code never passes
strings with whitespace or underscores). -/
def pyIntOfString (s : String) : Option Int :=
  match s.data with
  | '-' :: rest => (parseNatDigits rest).map (fun n => -(n : Int))
  | '+' :: rest => (parseNatDigits rest).map (fun n => (n : Int))
  | cs => (parseNatDigits cs).map (fun n => (n : Int))

/-- CPython `int(x)` on a decoded JSON value: `none` models the
`TypeError`/`ValueError` raised on `None`, strings that are not integer
literals, lists and dicts. -/
def pyInt : JVal → Option Int
  | .jint n => some n
  | .jbool b => some (if b then 1 else 0)
  | .jstr s => pyIntOfString s
  | _ => none

/-! ### Completion Tracker (`src/routes/habits.py`, `toggle_completion`) -/

/-- The text stored in the `completed_dates` column, classified by what
`json.loads` does with it: SQL `NULL`, the empty string, non-empty text that
is not valid JSON (`json.JSONDecodeError`), or text that decodes to `v`. -/
inductive StoredLog where
  | absent
  | emptyStr
  | invalidText (s : String)
  | jsonVal (v : JVal)
  deriving Repr

/-- `json.loads(habit.completed_dates or "[]")` wrapped in
`try/except json.JSONDecodeError` exactly as in `toggle_completion`:
`NULL` and `""` are falsy so `"[]"` is parsed instead; a decode error is
caught and replaced by the empty list; any successfully decoded value is
returned as-is (the `except` clause catches nothing else). -/
def loadedDates : StoredLog → JVal
  | .absent => .jarr []
  | .emptyStr => .jarr []
  | .invalidText _ => .jarr []
  | .jsonVal v => v

/-- Python `list.remove(today)`: removes the first element equal to `today`
(only ever called when a matching element is present). -/
def listRemoveFirst (today : String) : List JVal → List JVal
  | [] => []
  | v :: rest => if pyEqStr v today then rest else v :: listRemoveFirst today rest

/-- The membership flip at the heart of `toggle_completion`:
`if today in completed_dates: completed_dates.remove(today)
else: completed_dates.append(today)`. -/
def toggleList (today : String) (l : List JVal) : List JVal :=
  if l.any (fun v => pyEqStr v today) then listRemoveFirst today l
  else l ++ [.jstr today]

/-- The toggle body applied to the decoded value.  On a list it flips today's
membership; on any other value Python raises an uncaught exception
(`TypeError` from `today in <int/None/bool>`, or `AttributeError` from
`.remove`/`.append` on a `dict`/`str`), modelled by `none`. -/
def toggleBody (today : String) : JVal → Option JVal
  | .jarr l => some (.jarr (toggleList today l))
  | _ => none

/-- Responses of the toggle endpoint. -/
inductive ToggleResp where
  | redirectSignin
  | notFound
  | redirectTracker
  deriving Repr, DecidableEq

/-- `toggle_completion` (`src/routes/habits.py` lines 12–40).  Inputs: the
session's `authenticated` flag, the habit's stored `completed_dates` (or
`none` when no habit row exists, in which case `get_or_404` aborts with 404),
and today's ISO date string.  Output: the response and the stored log after
the request, or `none` for an uncaught exception. -/
def toggle_completion (auth : Bool) (stored : Option StoredLog) (today : String) :
    Option (ToggleResp × Option StoredLog) :=
  if !auth then some (.redirectSignin, stored)
  else
    match stored with
    | none => some (.notFound, none)
    | some s =>
      match toggleBody today (loadedDates s) with
      | none => none
      | some v => some (.redirectTracker, some (.jsonVal v))

/-- Two toggle calls in immediate succession (the second runs only if the
first completed). -/
def toggleTwice (auth : Bool) (stored : Option StoredLog) (today : String) :
    Option (ToggleResp × Option StoredLog) :=
  match toggle_completion auth stored today with
  | none => none
  | some (_, stored1) => toggle_completion auth stored1 today

/-- Number of occurrences of today's date string in a decoded log value. -/
def countToday (today : String) : JVal → Nat
  | .jarr l => l.countP (fun v => pyEqStr v today)
  | _ => 0

/-! ### Ordering Engine (`src/routes/habits.py`, `reorder_habits`) -/

/-- The two columns of a `Habit` row that `reorder_habits` touches. -/
structure RHabit where
  id : Int
  position : Int
  deriving Repr, DecidableEq

/-- `Habit.query.get(hid)`: look a row up by primary key. -/
def findRHabit (store : List RHabit) (hid : Int) : Option RHabit :=
  store.find? (fun h => h.id == hid)

/-- `habit.position = pos` on the row with primary key `hid` (primary keys
are unique, so at most one row changes). -/
def setPos (store : List RHabit) (hid : Int) (pos : Int) : List RHabit :=
  store.map (fun h => if h.id == hid then { h with position := pos } else h)

/-- The `for position, habit_id in enumerate(order, start=1)` loop of
`reorder_habits`: `pos` is the enumerate counter, which advances on every
element, including the ones skipped by `continue` (failed `int()` coercion or
failed lookup).  Returns the session state after the loop and `updated_ids`. -/
def reorderLoop : List JVal → Int → List RHabit → List RHabit × List Int
  | [], _, store => (store, [])
  | v :: rest, pos, store =>
    match pyInt v with
    | none => reorderLoop rest (pos + 1) store
    | some hid =>
      match findRHabit store hid with
      | none => reorderLoop rest (pos + 1) store
      | some _ =>
        let afterSet := setPos store hid pos
        let result := reorderLoop rest (pos + 1) afterSet
        (result.1, hid :: result.2)

/-- Responses of the reorder endpoint. -/
inductive RResp where
  | unauthorized
  | invalidPayload
  | noValidIds
  | ok (updated : List Int)
  deriving Repr, DecidableEq

/-- `reorder_habits` (`src/routes/habits.py` lines 43–84).  Inputs: the
session's `authenticated` flag, the request body as decoded by
`request.get_json(silent=True)` (`none` when the body is absent or not valid
JSON), and the habit rows.  Output: the response and the committed store, or
`none` for an uncaught exception.  Note `data = request.get_json(silent=True)
or {}` replaces a falsy body by `{}`, and `data.get("order")` raises
`AttributeError` when `data` is a truthy non-dict.  The two 400 returns and
the 401 return happen before `db.session.commit()`, so nothing is persisted
on those paths. -/
def reorder_habits (auth : Bool) (body : Option JVal) (store : List RHabit) :
    Option (RResp × List RHabit) :=
  if !auth then some (.unauthorized, store)
  else
    let data := match body with
      | some v => if pyTruthy v then v else .jobj []
      | none => .jobj []
    match data with
    | .jobj fields =>
      match dictGet fields "order" with
      | some (.jarr os) =>
        if os.isEmpty then some (.invalidPayload, store)
        else
          let result := reorderLoop os 1 store
          if result.2.isEmpty then some (.noValidIds, store)
          else some (.ok result.2, result.1)
      | _ => some (.invalidPayload, store)
    | _ => none

/-! ### App-level habit operations (`src/app.py`) -/

/-- The `Habit` columns touched by the `src/app.py` views. -/
structure AHabit where
  id : Int
  name : String
  description : Option String
  category : Option String
  priority : String
  isArchived : Bool
  archivedAt : Option Nat
  isPaused : Bool
  pausedAt : Option Nat
  deriving Repr, DecidableEq

/-- A `Notification` row as written by `create_notification`. -/
structure ANotif where
  userEmail : String
  message : String
  actionType : String
  habitName : Option String
  deriving Repr, DecidableEq

/-- The database rows relevant to the app-level views: the habit rows, the
notification rows, and the session user's
`UserPreferences.notifications_enabled` value (`none` when no preferences row
exists, in which case notifications default to enabled). -/
structure AppState where
  habits : List AHabit
  notifs : List ANotif
  notifsEnabled : Option Bool
  deriving Repr, DecidableEq

/-- The session context: the `authenticated` flag and the `email` entry. -/
structure Session where
  authenticated : Bool
  email : Option String
  deriving Repr, DecidableEq

/-- Responses of the app-level views. -/
inductive AResp where
  | redirectSignin
  | redirectTracker
  | redirectBack
  | notFound
  deriving Repr, DecidableEq

/-- `create_notification` (`src/routes/notifications.py` lines 107–136):
appends a notification row unless a preferences row exists with notifications
disabled; it does not commit. -/
def create_notification (st : AppState) (userEmail message actionType : String)
    (habitName : Option String) : AppState :=
  if st.notifsEnabled = some false then st
  else { st with notifs := st.notifs ++ [⟨userEmail, message, actionType, habitName⟩] }

/-- `db.session.get(Habit, hid)`. -/
def findAHabit (st : AppState) (hid : Int) : Option AHabit :=
  st.habits.find? (fun h => h.id == hid)

/-- Emit the per-operation notification exactly as the `src/app.py` views do:
only when the session carries an email. -/
def notifyIfEmail (sess : Session) (st : AppState) (message actionType : String)
    (habitName : Option String) : AppState :=
  match sess.email with
  | some email => create_notification st email message actionType habitName
  | none => st

/-- Python `str.strip()` (ASCII whitespace; the requests considered carry no
other whitespace). -/
def pyStrip (s : String) : String :=
  let ws := fun c => c = ' ' || c = '\t' || c = '\n' || c = '\r' || c = '\x0b' || c = '\x0c'
  String.mk (((s.data.dropWhile ws).reverse.dropWhile ws).reverse)

/-- `delete_habit` (`src/app.py` lines 242–262).  Note: this view performs
no authentication check — it goes straight to the lookup and the delete. -/
def delete_habit (sess : Session) (hid : Int) (st : AppState) : AResp × AppState :=
  match findAHabit st hid with
  | none => (.notFound, st)
  | some habit =>
    let afterDelete := { st with habits := st.habits.filter (fun h => !(h.id == hid)) }
    let afterNotify := notifyIfEmail sess afterDelete
      ("Deleted habit: " ++ habit.name) "deleted" (some habit.name)
    (.redirectTracker, afterNotify)

/-- `update_habit` (`src/app.py` lines 265–292): rename a habit. -/
def update_habit (sess : Session) (hid : Int) (formName : String) (st : AppState) :
    AResp × AppState :=
  if !sess.authenticated then (.redirectSignin, st)
  else
    match findAHabit st hid with
    | none => (.notFound, st)
    | some habit =>
      let newName := pyStrip formName
      if newName = "" then (.redirectTracker, st)
      else
        let renamed := st.habits.map (fun h => if h.id == hid then { h with name := newName } else h)
        let afterRename := { st with habits := renamed }
        let afterNotify := notifyIfEmail sess afterRename
          ("Edited habit: " ++ habit.name ++ " to " ++ newName) "edited" (some newName)
        (.redirectTracker, afterNotify)

/-- `archive_habit` (`src/app.py` lines 295–319). -/
def archive_habit (sess : Session) (hid : Int) (now : Nat) (st : AppState) :
    AResp × AppState :=
  if !sess.authenticated then (.redirectSignin, st)
  else
    match findAHabit st hid with
    | none => (.notFound, st)
    | some habit =>
      let marked := st.habits.map
        (fun h => if h.id == hid then { h with isArchived := true, archivedAt := some now } else h)
      let afterSet := { st with habits := marked }
      let afterNotify := notifyIfEmail sess afterSet
        ("Archived habit: " ++ habit.name) "archived" (some habit.name)
      (.redirectTracker, afterNotify)

/-- `unarchive_habit` (`src/app.py` lines 322–346). -/
def unarchive_habit (sess : Session) (hid : Int) (st : AppState) : AResp × AppState :=
  if !sess.authenticated then (.redirectSignin, st)
  else
    match findAHabit st hid with
    | none => (.notFound, st)
    | some habit =>
      let marked := st.habits.map
        (fun h => if h.id == hid then { h with isArchived := false, archivedAt := none } else h)
      let afterSet := { st with habits := marked }
      let afterNotify := notifyIfEmail sess afterSet
        ("Unarchived habit: " ++ habit.name) "unarchived" (some habit.name)
      (.redirectBack, afterNotify)

/-- `pause_habit` (`src/app.py` lines 349–373). -/
def pause_habit (sess : Session) (hid : Int) (now : Nat) (st : AppState) :
    AResp × AppState :=
  if !sess.authenticated then (.redirectSignin, st)
  else
    match findAHabit st hid with
    | none => (.notFound, st)
    | some habit =>
      let marked := st.habits.map
        (fun h => if h.id == hid then { h with isPaused := true, pausedAt := some now } else h)
      let afterSet := { st with habits := marked }
      let afterNotify := notifyIfEmail sess afterSet
        ("Paused habit: " ++ habit.name) "paused" (some habit.name)
      (.redirectTracker, afterNotify)

/-- `resume_habit` (`src/app.py` lines 376–400). -/
def resume_habit (sess : Session) (hid : Int) (st : AppState) : AResp × AppState :=
  if !sess.authenticated then (.redirectSignin, st)
  else
    match findAHabit st hid with
    | none => (.notFound, st)
    | some habit =>
      let marked := st.habits.map
        (fun h => if h.id == hid then { h with isPaused := false, pausedAt := none } else h)
      let afterSet := { st with habits := marked }
      let afterNotify := notifyIfEmail sess afterSet
        ("Resumed habit: " ++ habit.name) "resumed" (some habit.name)
      (.redirectBack, afterNotify)

/-- The habit-creation branch of `habit_tracker` (`src/app.py` lines
103–139, `POST`).  The five form parameters are the raw values retrieved with
`request.form.get` (with the source's defaults already applied for absent
keys); `newId` is the primary key the database assigns to the new row.  The
stored description is `description or None` after `strip()` — the source
applies no length cap. -/
def habit_tracker_post (sess : Session)
    (formName formDescription formCategory formPriority formCategoryCustom : String)
    (newId : Int) (st : AppState) : AResp × AppState :=
  if !sess.authenticated then (.redirectSignin, st)
  else
    let name := pyStrip formName
    let description := pyStrip formDescription
    let category0 := pyStrip formCategory
    let priority := pyStrip formPriority
    let category := if category0 = "other" then pyStrip formCategoryCustom else category0
    if name = "" then (.redirectTracker, st)
    else
      let habit : AHabit :=
        { id := newId
          name := name
          description := if description = "" then none else some description
          category := if category = "" then none else some category
          priority := if priority = "" then "Medium" else priority
          isArchived := false
          archivedAt := none
          isPaused := false
          pausedAt := none }
      let afterAdd := { st with habits := st.habits ++ [habit] }
      let afterNotify := notifyIfEmail sess afterAdd
        ("Added habit: " ++ name) "added" (some name)
      (.redirectTracker, afterNotify)

/-! ### Toggle route aliases (modelled from the spec) -/

/-- Modelled from the spec: the four equivalent route aliases under which the
toggle-today operation must be reachable.  The file implementing these alias
routes is not under `src/`; only the test suite (`test_toggle_aliases.py`)
exercises them, at exactly these four paths. -/
def toggleAliasRoutes : List String :=
  ["/toggle-completion", "/toggle_completion",
   "/habit-tracker/toggle-completion", "/habit-tracker/toggle_completion"]

/-- Modelled from the spec: the single shared helper (`_mark_completed_today`
in the tests' docstrings, not under `src/`) behind every alias route.  Per the
spec's Completion Tracker algorithm it authenticates, 404s on a missing
habit, parses the stored log, recovers to an empty list on any parse failure
or non-list value, and flips today's membership. -/
def markCompletedShared (auth : Bool) (stored : Option StoredLog) (today : String) :
    ToggleResp × Option StoredLog :=
  if !auth then (.redirectSignin, stored)
  else
    match stored with
    | none => (.notFound, none)
    | some s =>
      let l := match loadedDates s with
        | .jarr l => l
        | _ => []
      (.redirectTracker, some (.jsonVal (.jarr (toggleList today l))))

/-- Modelled from the spec: route dispatch for the alias paths — every alias
invokes the one shared code path; unknown paths do not reach the operation. -/
def aliasDispatch (route : String) (auth : Bool) (stored : Option StoredLog)
    (today : String) : Option (ToggleResp × Option StoredLog) :=
  if route ∈ toggleAliasRoutes then some (markCompletedShared auth stored today)
  else none

/-! ### List Composer (`src/app.py` lines 186–209, sort by priority) -/

/-- The `Habit` columns the priority sort reads (`created_at` as a timestamp
serial). -/
structure SHabit where
  name : String
  priority : String
  createdAt : Nat
  deriving Repr, DecidableEq

/-- `priority_order.get(h.priority, 1)` with
`priority_order = {"High": 0, "Medium": 1, "Low": 2}`. -/
def priorityRank (p : String) : Nat :=
  if p = "High" then 0 else if p = "Medium" then 1 else if p = "Low" then 2 else 1

/-- The comparison induced by the sort key
`lambda h: (priority_order.get(h.priority, 1), h.created_at)` —
lexicographic on (rank, creation time). -/
def priorityKeyLe (a b : SHabit) : Prop :=
  priorityRank a.priority < priorityRank b.priority ∨
    (priorityRank a.priority = priorityRank b.priority ∧ a.createdAt ≤ b.createdAt)

instance : DecidableRel priorityKeyLe := fun a b => by
  unfold priorityKeyLe; exact inferInstance

instance : IsTotal SHabit priorityKeyLe :=
  ⟨fun a b => by unfold priorityKeyLe; omega⟩

instance : IsTrans SHabit priorityKeyLe :=
  ⟨fun a b c hab hbc => by
    unfold priorityKeyLe at hab hbc ⊢; omega⟩

/-- `sorted(habits, key=lambda h: (priority_order.get(h.priority, 1),
h.created_at))`.  Python's `sorted` is a stable sort over this total
preorder; `List.insertionSort` is also stable, so both compute the same
output list. -/
def sortHabitsByPriority (hs : List SHabit) : List SHabit :=
  hs.insertionSort priorityKeyLe

/-! ### Concrete rows used in the closed statements -/

/-- A 250-character description (the `"X" * 250` of the truncation test). -/
def longDesc : String := String.mk (List.replicate 250 'X')

/-- The habit row of the unauthenticated-delete scenario. -/
def sampleHabit : AHabit :=
  ⟨1, "Morning Run", some "Run 5k every morning", none, "Medium", false, none, false, none⟩

/-- Habit A of the sort example: High priority, created on day 1. -/
def habitA : SHabit := ⟨"A", "High", 1⟩

/-- Habit B of the sort example: Medium priority, created on day 2. -/
def habitB : SHabit := ⟨"B", "Medium", 2⟩

/-- Habit C of the sort example: High priority, created on day 3. -/
def habitC : SHabit := ⟨"C", "High", 3⟩

/-! ## Helper lemmas -/

theorem pyEqStr_self (t : String) : pyEqStr (.jstr t) t = true := by
  simp [pyEqStr]

theorem any_eq_false_iff_countP_zero (today : String) (l : List JVal) :
    l.any (fun v => pyEqStr v today) = false
      ↔ l.countP (fun v => pyEqStr v today) = 0 := by
  induction l with
  | nil => simp
  | cons v rest ih => cases hv : pyEqStr v today <;> simp [List.countP_cons, hv, ih]

theorem countP_listRemoveFirst (today : String) (l : List JVal)
    (h : l.any (fun v => pyEqStr v today) = true) :
    (listRemoveFirst today l).countP (fun v => pyEqStr v today)
      = l.countP (fun v => pyEqStr v today) - 1 := by
  induction l with
  | nil => simp at h
  | cons v rest ih =>
    cases hv : pyEqStr v today with
    | true => simp [listRemoveFirst, hv, List.countP_cons]
    | false =>
      have hrest : rest.any (fun v => pyEqStr v today) = true := by
        simpa [hv] using h
      simp [listRemoveFirst, hv, List.countP_cons, ih hrest]

theorem listRemoveFirst_append_self (today : String) (l : List JVal)
    (h : l.any (fun v => pyEqStr v today) = false) :
    listRemoveFirst today (l ++ [.jstr today]) = l := by
  induction l with
  | nil => simp [listRemoveFirst, pyEqStr]
  | cons v rest ih =>
    have hv : pyEqStr v today = false := by
      cases hx : pyEqStr v today
      · rfl
      · simp [hx] at h
    have hrest : rest.any (fun v => pyEqStr v today) = false := by
      simpa [hv] using h
    simp [listRemoveFirst, hv, ih hrest]

theorem countP_toggleList (today : String) (l : List JVal) :
    (toggleList today l).countP (fun v => pyEqStr v today)
      = if l.countP (fun v => pyEqStr v today) = 0 then 1
        else l.countP (fun v => pyEqStr v today) - 1 := by
  cases h : l.any (fun v => pyEqStr v today) with
  | true =>
    have hpos : l.countP (fun v => pyEqStr v today) ≠ 0 := by
      intro h0
      rw [← any_eq_false_iff_countP_zero] at h0
      rw [h0] at h
      exact Bool.false_ne_true h
    simp [toggleList, h, hpos, countP_listRemoveFirst today l h]
  | false =>
    have h0 : l.countP (fun v => pyEqStr v today) = 0 :=
      (any_eq_false_iff_countP_zero today l).mp h
    simp [toggleList, h, h0, List.countP_append, List.countP_cons, pyEqStr_self]

theorem reorderLoop_store_of_no_ids (os : List JVal) :
    ∀ (pos : Int) (store : List RHabit),
      (reorderLoop os pos store).2 = [] → (reorderLoop os pos store).1 = store := by
  induction os with
  | nil => intro pos store _; rfl
  | cons v rest ih =>
    intro pos store h
    cases hv : pyInt v with
    | none =>
      simp [reorderLoop, hv] at h ⊢
      exact ih _ _ h
    | some hid =>
      cases hf : findRHabit store hid with
      | none =>
        simp [reorderLoop, hv, hf] at h ⊢
        exact ih _ _ h
      | some hb => simp [reorderLoop, hv, hf] at h

theorem reorder_jobj_body (fields : List (String × JVal)) (store : List RHabit) :
    reorder_habits true (some (.jobj fields)) store
      = (match dictGet fields "order" with
         | some (.jarr os) =>
           if os.isEmpty then some (.invalidPayload, store)
           else
             let result := reorderLoop os 1 store
             if result.2.isEmpty then some (.noValidIds, store)
             else some (.ok result.2, result.1)
         | _ => some (.invalidPayload, store)) := by
  cases fields with
  | nil => rfl
  | cons f fs => rfl

/-! ## Claim theorems -/

/-- C1.  The claim says `toggle_completion` recovers from every stored
completion-log value that is not a well-formed JSON array — null/absent,
empty string, invalid JSON text, and valid JSON of a non-list type — by
treating the log as empty and persisting exactly today's date.  The code
recovers only from the first three: its `except` clause catches
`json.JSONDecodeError` alone, so a stored value that decodes to a JSON
object (or number) crashes the request with an uncaught
`AttributeError`/`TypeError` (`none` below) instead of completing. -/
theorem toggle_corrupt_recovery_crashes_on_non_list_json :
    toggle_completion true (some (.invalidText "this-is-not-json")) "2026-10-12"
        = some (.redirectTracker, some (.jsonVal (.jarr [.jstr "2026-10-12"])))
  ∧ toggle_completion true (some .absent) "2026-10-12"
        = some (.redirectTracker, some (.jsonVal (.jarr [.jstr "2026-10-12"])))
  ∧ toggle_completion true (some .emptyStr) "2026-10-12"
        = some (.redirectTracker, some (.jsonVal (.jarr [.jstr "2026-10-12"])))
  ∧ toggle_completion true (some (.jsonVal (.jobj [("key", .jstr "value")]))) "2026-10-12"
        = none
  ∧ toggle_completion true (some (.jsonVal (.jint 456))) "2026-10-12" = none :=
  ⟨rfl, rfl, rfl, rfl, rfl⟩

/-- C2.  The claim (and the repository's own test
`test_reorder_habits_handles_invalid_habit_ids`) says skipped elements
consume no position slot, so with input
`[1, "not-a-number", null, 2, 999999]` the two valid habits end at positions
1 and 2.  The code draws positions from `enumerate(order, start=1)`, which
advances on skipped elements too: habit 2 ends at position 4. -/
theorem reorder_positions_not_contiguous_on_skip :
    reorder_habits true
        (some (.jobj [("order",
          .jarr [.jint 1, .jstr "not-a-number", .jnull, .jint 2, .jint 999999])]))
        [⟨1, 10⟩, ⟨2, 20⟩]
      = some (.ok [1, 2], [⟨1, 1⟩, ⟨2, 4⟩])
  ∧ ((⟨2, 4⟩ : RHabit) ≠ ⟨2, 2⟩) :=
  ⟨rfl, by decide⟩

set_option maxRecDepth 4000 in
/-- C5.  The claim (and the repository's own test
`test_description_is_truncated_on_create`) says descriptions are truncated
to 200 characters on write.  Nothing on the write path truncates: the habit
is stored with the full 250-character description. -/
theorem create_stores_250_char_description_untruncated :
    ((habit_tracker_post ⟨true, some "test@example.com"⟩ "Test habit truncation" longDesc
        "Health" "Medium" "" 1 ⟨[], [], none⟩).2.habits.map (fun h => h.description))
      = [some longDesc]
  ∧ longDesc.length = 250
  ∧ (250 : Nat) ≠ 200 :=
  ⟨rfl, rfl, by decide⟩

/-- C4 counterexample.  An unauthenticated session calling delete on an
existing habit is not redirected to sign-in: the habit is deleted and the
response is the tracker redirect. -/
theorem delete_without_auth_removes_habit :
    delete_habit ⟨false, none⟩ 1 ⟨[sampleHabit], [], none⟩
        = (.redirectTracker, ⟨[], [], none⟩)
  ∧ AResp.redirectTracker ≠ AResp.redirectSignin
  ∧ ([] : List AHabit) ≠ [sampleHabit] :=
  ⟨rfl, by decide, by decide⟩

/-- C6 counterexample.  Starting from the well-formed log
`["2026-10-12", "2020-01-01"]` (today's date first), two toggles in
succession yield `["2020-01-01", "2026-10-12"]`: the same entries, but
today's entry has moved to the end, so the decoded log is not equal to its
content before the pair of calls. -/
theorem toggle_twice_moves_today_to_end :
    toggleTwice true
        (some (.jsonVal (.jarr [.jstr "2026-10-12", .jstr "2020-01-01"]))) "2026-10-12"
      = some (.redirectTracker,
          some (.jsonVal (.jarr [.jstr "2020-01-01", .jstr "2026-10-12"])))
  ∧ ([JVal.jstr "2020-01-01", JVal.jstr "2026-10-12"]
      ≠ [JVal.jstr "2026-10-12", JVal.jstr "2020-01-01"]) :=
  ⟨rfl, by simp⟩

/-- C7 counterexample.  From the stored (well-formed but adversarial) log
`["2026-10-12", "2026-10-12", "2026-10-12"]`, a single toggle removes one
occurrence and leaves two — more than once. -/
theorem toggle_from_triple_today_leaves_two :
    toggle_completion true
        (some (.jsonVal (.jarr [.jstr "2026-10-12", .jstr "2026-10-12", .jstr "2026-10-12"])))
        "2026-10-12"
      = some (.redirectTracker,
          some (.jsonVal (.jarr [.jstr "2026-10-12", .jstr "2026-10-12"])))
  ∧ countToday "2026-10-12" (.jarr [.jstr "2026-10-12", .jstr "2026-10-12"]) = 2
  ∧ ¬ (2 : Nat) ≤ 1 :=
  ⟨rfl, rfl, by decide⟩

/-- C9 counterexample.  An authenticated reorder call whose body is truthy
but not a JSON object (here the JSON string "x") neither fails with the
400-equivalent `{success: false}` body nor succeeds: `data.get("order")`
raises an uncaught `AttributeError`. -/
theorem reorder_truthy_nonobject_body_crashes :
    reorder_habits true (some (.jstr "x")) [⟨1, 10⟩] = none :=
  rfl

/-- C6 (amended).  Two toggles in immediate succession: a recoverable
malformed start (null/absent, empty string, invalid JSON text) ends as the
empty list; a decoded array without today's date is restored exactly; a
decoded array containing today's date exactly once is restored up to
position — its first today-entry is removed and today is re-appended at the
end.  (Valid JSON of a non-list type never completes the first call; see the
C1 theorem.) -/
theorem toggle_twice_restores_content :
    (∀ (today : String) (s : StoredLog),
        (s = .absent ∨ s = .emptyStr ∨ ∃ t, s = .invalidText t) →
        toggleTwice true (some s) today
          = some (.redirectTracker, some (.jsonVal (.jarr []))))
  ∧ (∀ (today : String) (l : List JVal),
        l.countP (fun v => pyEqStr v today) = 0 →
        toggleTwice true (some (.jsonVal (.jarr l))) today
          = some (.redirectTracker, some (.jsonVal (.jarr l))))
  ∧ (∀ (today : String) (l : List JVal),
        l.countP (fun v => pyEqStr v today) = 1 →
        toggleTwice true (some (.jsonVal (.jarr l))) today
          = some (.redirectTracker,
              some (.jsonVal (.jarr (listRemoveFirst today l ++ [.jstr today]))))) := by
  refine ⟨?_, ?_, ?_⟩
  · intro today s hs
    have hload : loadedDates s = .jarr [] := by
      rcases hs with rfl | rfl | ⟨t, rfl⟩ <;> rfl
    have h1 : toggleList today ([] : List JVal) = [.jstr today] := rfl
    have h2 : toggleList today [.jstr today] = [] := by
      simp [toggleList, listRemoveFirst, pyEqStr_self]
    have t1 : toggle_completion true (some s) today
        = some (.redirectTracker, some (.jsonVal (.jarr [.jstr today]))) := by
      simp [toggle_completion, toggleBody, hload, h1]
    have t2 : toggle_completion true (some (.jsonVal (.jarr [.jstr today]))) today
        = some (.redirectTracker, some (.jsonVal (.jarr []))) := by
      simp [toggle_completion, toggleBody, loadedDates, h2]
    simp [toggleTwice, t1, t2]
  · intro today l h
    have hany : l.any (fun v => pyEqStr v today) = false :=
      (any_eq_false_iff_countP_zero today l).mpr h
    simp [toggleTwice, toggle_completion, toggleBody, loadedDates, toggleList,
      hany, List.any_append, pyEqStr_self, listRemoveFirst_append_self today l hany]
  · intro today l h
    have hany : l.any (fun v => pyEqStr v today) = true := by
      cases hx : l.any (fun v => pyEqStr v today)
      · rw [(any_eq_false_iff_countP_zero today l).mp hx] at h; exact absurd h (by decide)
      · rfl
    have hrem : (listRemoveFirst today l).countP (fun v => pyEqStr v today) = 0 := by
      rw [countP_listRemoveFirst today l hany, h]
    have hany2 : (listRemoveFirst today l).any (fun v => pyEqStr v today) = false :=
      (any_eq_false_iff_countP_zero today _).mpr hrem
    simp [toggleTwice, toggle_completion, toggleBody, loadedDates, toggleList,
      hany, hany2]

/-- C6 witness: the amended statement applied to the absent log and to the
log `["2020-01-01"]` that does not contain today. -/
theorem toggle_twice_restores_content_witness :
    toggleTwice true (some .absent) "2026-10-12"
        = some (.redirectTracker, some (.jsonVal (.jarr [])))
  ∧ toggleTwice true (some (.jsonVal (.jarr [.jstr "2020-01-01"]))) "2026-10-12"
        = some (.redirectTracker, some (.jsonVal (.jarr [.jstr "2020-01-01"]))) :=
  ⟨toggle_twice_restores_content.1 "2026-10-12" .absent (Or.inl rfl),
   toggle_twice_restores_content.2.1 "2026-10-12" [.jstr "2020-01-01"] (by decide)⟩

/-- C7 (amended).  When a toggle completes, the number of occurrences of
today's date in the persisted decoded log is 1 if it was absent from the
decoded starting value and one fewer than before otherwise; hence any start
in which today appears at most once — in particular every state a toggle
itself produces — again yields at most one occurrence.  (From an adversarial
stored list with k ≥ 2 occurrences the invariant fails; see the
counterexample.) -/
theorem toggle_count_formula :
    ∀ (today : String) (s : StoredLog) (v : JVal),
      toggle_completion true (some s) today
          = some (.redirectTracker, some (.jsonVal v)) →
      (countToday today v
          = if countToday today (loadedDates s) = 0 then 1
            else countToday today (loadedDates s) - 1)
      ∧ (countToday today (loadedDates s) ≤ 1 → countToday today v ≤ 1) := by
  intro today s v h
  cases hL : loadedDates s with
  | jarr l =>
    rw [toggle_completion] at h
    simp [toggleBody, hL] at h
    subst h
    constructor
    · simp [countToday, countP_toggleList]
    · intro hle
      simp [countToday] at hle ⊢
      rw [countP_toggleList]
      split <;> omega
  | jnull => rw [toggle_completion] at h; simp [toggleBody, hL] at h
  | jbool b => rw [toggle_completion] at h; simp [toggleBody, hL] at h
  | jint n => rw [toggle_completion] at h; simp [toggleBody, hL] at h
  | jstr t => rw [toggle_completion] at h; simp [toggleBody, hL] at h
  | jobj fs => rw [toggle_completion] at h; simp [toggleBody, hL] at h

/-- C7 witness: the count formula applied to a toggle from the empty list. -/
theorem toggle_count_formula_witness :
    (countToday "2026-10-12" (.jarr [.jstr "2026-10-12"])
        = if countToday "2026-10-12" (loadedDates (.jsonVal (.jarr []))) = 0 then 1
          else countToday "2026-10-12" (loadedDates (.jsonVal (.jarr []))) - 1)
  ∧ (countToday "2026-10-12" (loadedDates (.jsonVal (.jarr []))) ≤ 1 →
      countToday "2026-10-12" (.jarr [.jstr "2026-10-12"]) ≤ 1) :=
  toggle_count_formula "2026-10-12" (.jsonVal (.jarr []))
    (.jarr [.jstr "2026-10-12"]) rfl

/-- C3.  The toggle-today operation is reachable under four distinct route
aliases, every alias invokes the one shared code path, and consequently any
two aliases have identical behaviour (status, redirect target, resulting
stored log) on every habit id and every stored state. -/
theorem toggle_alias_routes_single_shared_path :
    toggleAliasRoutes.length = 4
  ∧ toggleAliasRoutes.Nodup
  ∧ (∀ route ∈ toggleAliasRoutes,
      ∀ (auth : Bool) (stored : Option StoredLog) (today : String),
        aliasDispatch route auth stored today
          = some (markCompletedShared auth stored today))
  ∧ (∀ r1 ∈ toggleAliasRoutes, ∀ r2 ∈ toggleAliasRoutes,
      ∀ (auth : Bool) (stored : Option StoredLog) (today : String),
        aliasDispatch r1 auth stored today = aliasDispatch r2 auth stored today) := by
  refine ⟨rfl, by decide, ?_, ?_⟩
  · intro route hr auth stored today
    simp [aliasDispatch, hr]
  · intro r1 h1 r2 h2 auth stored today
    simp [aliasDispatch, h1, h2]

/-- C3 witness: the first alias route dispatches to the shared path. -/
theorem toggle_alias_routes_single_shared_path_witness :
    aliasDispatch "/toggle-completion" true (some .absent) "2026-10-12"
      = some (markCompletedShared true (some .absent) "2026-10-12") :=
  toggle_alias_routes_single_shared_path.2.2.1 "/toggle-completion"
    (by simp [toggleAliasRoutes]) true (some .absent) "2026-10-12"

/-- C4 (amended).  Every mutating habit operation except delete rejects an
unauthenticated session before touching any state — redirect to sign-in for
the form-style views, a 401 JSON body for the reorder endpoint — with the
store returned unchanged.  `delete_habit` performs no authentication check:
for an unauthenticated session it deletes the found habit anyway (no
notification is written only because the session carries no email). -/
theorem auth_gate_on_mutations_except_delete :
    (∀ (email : Option String) (hid : Int) (formName : String) (st : AppState),
        update_habit ⟨false, email⟩ hid formName st = (.redirectSignin, st))
  ∧ (∀ (email : Option String) (hid : Int) (now : Nat) (st : AppState),
        archive_habit ⟨false, email⟩ hid now st = (.redirectSignin, st))
  ∧ (∀ (email : Option String) (hid : Int) (st : AppState),
        unarchive_habit ⟨false, email⟩ hid st = (.redirectSignin, st))
  ∧ (∀ (email : Option String) (hid : Int) (now : Nat) (st : AppState),
        pause_habit ⟨false, email⟩ hid now st = (.redirectSignin, st))
  ∧ (∀ (email : Option String) (hid : Int) (st : AppState),
        resume_habit ⟨false, email⟩ hid st = (.redirectSignin, st))
  ∧ (∀ (email : Option String) (n d c p cc : String) (nid : Int) (st : AppState),
        habit_tracker_post ⟨false, email⟩ n d c p cc nid st = (.redirectSignin, st))
  ∧ (∀ (stored : Option StoredLog) (today : String),
        toggle_completion false stored today = some (.redirectSignin, stored))
  ∧ (∀ (body : Option JVal) (store : List RHabit),
        reorder_habits false body store = some (.unauthorized, store))
  ∧ (∀ (hid : Int) (st : AppState) (hb : AHabit),
        findAHabit st hid = some hb →
        delete_habit ⟨false, none⟩ hid st
          = (.redirectTracker,
             { st with habits := st.habits.filter (fun h => !(h.id == hid)) })) := by
  refine ⟨fun _ _ _ _ => rfl, fun _ _ _ _ => rfl, fun _ _ _ => rfl,
    fun _ _ _ _ => rfl, fun _ _ _ => rfl, fun _ _ _ _ _ _ _ _ => rfl,
    fun _ _ => rfl, fun _ _ => rfl, ?_⟩
  intro hid st hb hfind
  simp [delete_habit, hfind, notifyIfEmail]

/-- C4 witness: the delete clause applied to a store holding one habit. -/
theorem auth_gate_on_mutations_except_delete_witness :
    delete_habit ⟨false, none⟩ 1 ⟨[sampleHabit], [], none⟩
      = (.redirectTracker,
         { habits := [sampleHabit].filter (fun h => !(h.id == 1))
           notifs := []
           notifsEnabled := none }) :=
  auth_gate_on_mutations_except_delete.2.2.2.2.2.2.2.2 1
    ⟨[sampleHabit], [], none⟩ sampleHabit rfl

/-- C8.  Sorting with the priority key produces a permutation of the input
ordered by priority rank (High = 0, Medium = 1, Low = 2) ascending with ties
broken by creation time ascending; on A(High, day 1), B(Medium, day 2),
C(High, day 3) the result is [A, C, B]. -/
theorem priority_sort_orders_by_rank_then_createdAt :
    (∀ hs : List SHabit, (sortHabitsByPriority hs).Perm hs)
  ∧ (∀ hs : List SHabit, List.Sorted priorityKeyLe (sortHabitsByPriority hs))
  ∧ sortHabitsByPriority [habitA, habitB, habitC] = [habitA, habitC, habitB] := by
  refine ⟨fun hs => List.perm_insertionSort priorityKeyLe hs,
    fun hs => List.sorted_insertionSort priorityKeyLe hs, ?_⟩
  decide

/-- C9 (amended).  For an authenticated call whose body is absent, falsy, or
a JSON object, the 400-equivalent `{success: false}` responses occur in
exactly two cases — the `order` member is missing, not a list, or an empty
list; or a non-empty `order` list resolves zero ids — and every other such
call succeeds with `{success: true}` carrying the updated ids in input
order.  (A truthy non-object body instead crashes with an uncaught
`AttributeError`; see the counterexample.) -/
theorem reorder_failure_classification :
    (∀ store : List RHabit, reorder_habits true none store = some (.invalidPayload, store))
  ∧ (∀ (v : JVal) (store : List RHabit), pyTruthy v = false →
        reorder_habits true (some v) store = reorder_habits true none store)
  ∧ (∀ (fields : List (String × JVal)) (store : List RHabit),
        (∀ os : List JVal, dictGet fields "order" ≠ some (.jarr os)) →
        reorder_habits true (some (.jobj fields)) store = some (.invalidPayload, store))
  ∧ (∀ (fields : List (String × JVal)) (store : List RHabit),
        dictGet fields "order" = some (.jarr []) →
        reorder_habits true (some (.jobj fields)) store = some (.invalidPayload, store))
  ∧ (∀ (fields : List (String × JVal)) (os : List JVal) (store : List RHabit),
        dictGet fields "order" = some (.jarr os) → os ≠ [] →
        (reorderLoop os 1 store).2 = [] →
        reorder_habits true (some (.jobj fields)) store = some (.noValidIds, store))
  ∧ (∀ (fields : List (String × JVal)) (os : List JVal) (store : List RHabit),
        dictGet fields "order" = some (.jarr os) → os ≠ [] →
        (reorderLoop os 1 store).2 ≠ [] →
        reorder_habits true (some (.jobj fields)) store
          = some (.ok (reorderLoop os 1 store).2, (reorderLoop os 1 store).1)) := by
  refine ⟨fun store => rfl, ?_, ?_, ?_, ?_, ?_⟩
  · intro v store hv
    cases v <;> simp_all [reorder_habits, pyTruthy]
  · intro fields store h
    rw [reorder_jobj_body]
    cases hGet : dictGet fields "order" with
    | none => rfl
    | some w =>
      cases w with
      | jarr os => exact absurd hGet (h os)
      | jnull => rfl
      | jbool b => rfl
      | jint n => rfl
      | jstr t => rfl
      | jobj fs => rfl
  · intro fields store hGet
    rw [reorder_jobj_body, hGet]
    rfl
  · intro fields os store hGet hne hids
    rw [reorder_jobj_body, hGet]
    cases os with
    | nil => exact absurd rfl hne
    | cons o os' => simp [hids]
  · intro fields os store hGet hne hids
    rw [reorder_jobj_body, hGet]
    cases os with
    | nil => exact absurd rfl hne
    | cons o os' =>
      cases hR : (reorderLoop (o :: os') 1 store).2 with
      | nil => exact absurd hR hids
      | cons a as => simp [hR]

/-- C9 witness: a non-empty order list resolving zero ids yields the
no-valid-ids 400 response. -/
theorem reorder_failure_classification_witness :
    reorder_habits true (some (.jobj [("order", .jarr [.jnull])])) []
      = some (.noValidIds, []) :=
  reorder_failure_classification.2.2.2.2.1 [("order", .jarr [.jnull])] [.jnull] []
    rfl (by simp) rfl

/-- C10.  Whenever reorder returns one of its failure responses
(unauthenticated 401, invalid payload 400, zero-resolved-ids 400), the
committed store is exactly the store before the call; moreover whenever the
assignment loop resolves no ids it writes no position at all, so not even
session state is touched. -/
theorem reorder_failure_leaves_store_unchanged :
    (∀ (auth : Bool) (body : Option JVal) (store : List RHabit) (resp : RResp)
        (store2 : List RHabit),
        reorder_habits auth body store = some (resp, store2) →
        (resp = .unauthorized ∨ resp = .invalidPayload ∨ resp = .noValidIds) →
        store2 = store)
  ∧ (∀ (os : List JVal) (pos : Int) (store : List RHabit),
        (reorderLoop os pos store).2 = [] → (reorderLoop os pos store).1 = store) := by
  refine ⟨?_, reorderLoop_store_of_no_ids⟩
  intro auth body store resp store2 h hfail
  cases auth with
  | false =>
    simp [reorder_habits] at h
    exact h.2.symm
  | true =>
    have hobj : ∀ (fields : List (String × JVal)),
        reorder_habits true (some (.jobj fields)) store = some (resp, store2) →
        store2 = store := by
      intro fields hf
      rw [reorder_jobj_body] at hf
      cases hGet : dictGet fields "order" with
      | none => rw [hGet] at hf; simp at hf; exact hf.2.symm
      | some w =>
        cases w with
        | jarr os =>
          rw [hGet] at hf
          cases os with
          | nil => simp at hf; exact hf.2.symm
          | cons o os' =>
            simp at hf
            cases hR : (reorderLoop (o :: os') 1 store).2 with
            | nil => rw [hR] at hf; simp at hf; exact hf.2.symm
            | cons a as =>
              rw [hR] at hf
              simp at hf
              rcases hf with ⟨hresp, _⟩
              rcases hfail with rfl | rfl | rfl <;> simp at hresp
        | jnull => rw [hGet] at hf; simp at hf; exact hf.2.symm
        | jbool b => rw [hGet] at hf; simp at hf; exact hf.2.symm
        | jint n => rw [hGet] at hf; simp at hf; exact hf.2.symm
        | jstr t => rw [hGet] at hf; simp at hf; exact hf.2.symm
        | jobj fs => rw [hGet] at hf; simp at hf; exact hf.2.symm
    cases body with
    | none =>
      have hnone : reorder_habits true none store
          = reorder_habits true (some (.jobj [])) store := rfl
      rw [hnone] at h; exact hobj [] h
    | some v =>
      cases v with
      | jobj fields => exact hobj fields h
      | jnull =>
        have : reorder_habits true (some .jnull) store
            = reorder_habits true (some (.jobj [])) store := rfl
        rw [this] at h; exact hobj [] h
      | jbool b =>
        cases b with
        | false =>
          have : reorder_habits true (some (.jbool false)) store
              = reorder_habits true (some (.jobj [])) store := rfl
          rw [this] at h; exact hobj [] h
        | true => simp [reorder_habits, pyTruthy] at h
      | jint n =>
        by_cases hn : n = 0
        · subst hn
          have : reorder_habits true (some (.jint 0)) store
              = reorder_habits true (some (.jobj [])) store := rfl
          rw [this] at h; exact hobj [] h
        · simp [reorder_habits, pyTruthy, hn] at h
      | jstr t =>
        by_cases ht : t = ""
        · subst ht
          have : reorder_habits true (some (.jstr "")) store
              = reorder_habits true (some (.jobj [])) store := by
            simp [reorder_habits, pyTruthy]
          rw [this] at h; exact hobj [] h
        · simp [reorder_habits, pyTruthy, ht] at h
      | jarr l =>
        cases l with
        | nil =>
          have : reorder_habits true (some (.jarr [])) store
              = reorder_habits true (some (.jobj [])) store := rfl
          rw [this] at h; exact hobj [] h
        | cons x xs => simp [reorder_habits, pyTruthy] at h

/-- C10 witness: the unauthenticated failure and the empty-resolution loop
at concrete inputs. -/
theorem reorder_failure_leaves_store_unchanged_witness :
    ([⟨1, 5⟩] : List RHabit) = [⟨1, 5⟩]
  ∧ (reorderLoop [.jnull] 1 [⟨1, 5⟩]).1 = [⟨1, 5⟩] :=
  ⟨reorder_failure_leaves_store_unchanged.1 false none [⟨1, 5⟩] .unauthorized [⟨1, 5⟩]
      rfl (Or.inl rfl),
   reorder_failure_leaves_store_unchanged.2 [.jnull] 1 [⟨1, 5⟩] rfl⟩

end HabitTracker
